import Mathlib

/-!
Shallow embedding, in Lean 4, of the task-lifecycle and download-orchestration
core of the `video-downloader-bot` repository:

* `src/task_manager.py` — the task store (`DownloadTaskManager`): the status
  state machine, `create_task`, `update_task_status`, `cleanup_completed_tasks`.
* `src/video_downloader.py` — the download orchestrator (`VideoDownloader`):
  the progress hook, `_download_sync` and `download_video`.

Python floats are modelled as rationals (`ℚ`); `datetime` values as integer
timestamps (`Int`, all in one time unit); dictionaries as association lists;
exceptions from the external fetch library as explicit sum values consumed by
the handlers that the Python code installs; functions that can mutate the
world also return a record of the effects they performed (whether a transfer
was started, which file was deleted), so that claims about side effects are
statable.
-/

namespace VideoBot

/-- `url_validator.Platform`. -/
inductive Platform
  | youtube_shorts
  | tiktok
  | unsupported
  deriving DecidableEq, Repr

/-- `task_manager.TaskStatus`. -/
inductive TaskStatus
  | pending
  | downloading
  | completed
  | failed
  deriving DecidableEq, Repr

/-- `task_manager.DownloadTask` (dataclass). Times are `Int` timestamps,
`progress` is `ℚ` in place of a Python float. -/
structure DownloadTask where
  task_id : String
  url : String
  user_id : Int
  platform : Platform
  status : TaskStatus
  created_at : Int
  completed_at : Option Int
  file_path : Option String
  error_message : Option String
  progress : ℚ
  deriving DecidableEq, Repr

/-- `DownloadTaskManager.VALID_TRANSITIONS` (task_manager.py lines 43-48). -/
def VALID_TRANSITIONS : TaskStatus → List TaskStatus
  | .pending => [.downloading, .failed]
  | .downloading => [.completed, .failed]
  | .completed => []
  | .failed => []

/-- `DownloadTaskManager._is_valid_transition` (task_manager.py lines 174-190). -/
def is_valid_transition (current_status new_status : TaskStatus) : Bool :=
  (VALID_TRANSITIONS current_status).contains new_status

/-- The optional-field arguments of `update_task_status`. -/
structure UpdateArgs where
  new_status : TaskStatus
  file_path : Option String
  error_message : Option String
  progress : Option ℚ
  deriving DecidableEq, Repr

/-- Python truthiness of an `Optional[str]`: `None` and `""` are falsy.
Used because task_manager.py line 156/159 writes `if file_path:` /
`if error_message:`, not an `is not None` test. -/
def strTruthy : Option String → Bool
  | none => false
  | some s => s ≠ ""

/-- The per-task body of `DownloadTaskManager.update_task_status`
(task_manager.py lines 143-172), once the task has been found in the store:
validates the transition, then (on acceptance) writes the fields in source
order.  Returns the Python return value paired with the task record after
the call.  `now` stands for `datetime.now()` at line 167. -/
def applyUpdate (task : DownloadTask) (args : UpdateArgs) (now : Int) :
    Bool × DownloadTask :=
  if ¬ is_valid_transition task.status args.new_status then
    (false, task)
  else
    let t1 := { task with status := args.new_status }
    let t2 := if strTruthy args.file_path then
        { t1 with file_path := args.file_path } else t1
    let t3 := if strTruthy args.error_message then
        { t2 with error_message := args.error_message } else t2
    let t4 := match args.progress with
      | some p => { t3 with progress := max 0 (min 1 p) }
      | none => t3
    let t5 := if args.new_status = .completed ∨ args.new_status = .failed then
        { t4 with completed_at := some now } else t4
    (true, t5)

/-- The task store: `self.tasks`, a dict from task id to record, modelled as
an association list. -/
abbrev Store := List (String × DownloadTask)

/-- Dict lookup `self.tasks.get(task_id)`. -/
def lookupTask (s : Store) (task_id : String) : Option DownloadTask :=
  (s.find? (fun p => p.1 = task_id)).map Prod.snd

/-- `DownloadTaskManager.update_task_status` (task_manager.py lines 117-172)
acting on the whole store: missing id returns `False` (line 141); otherwise
the found record is updated in place via `applyUpdate`. -/
def update_task_status (s : Store) (task_id : String) (args : UpdateArgs)
    (now : Int) : Bool × Store :=
  match lookupTask s task_id with
  | none => (false, s)
  | some task =>
    let r := applyUpdate task args now
    if r.1 then
      (true, s.map (fun p => if p.1 = task_id then (p.1, r.2) else p))
    else
      (false, s)

/-- `DownloadTaskManager.create_task` (task_manager.py lines 55-83): the
record built at lines 71-77 with the dataclass defaults of lines 31-36.
The fresh uuid is abstracted as the supplied `task_id`. -/
def create_task (task_id url : String) (user_id : Int) (platform : Platform)
    (now : Int) : DownloadTask :=
  { task_id := task_id
    url := url
    user_id := user_id
    platform := platform
    status := .pending
    created_at := now
    completed_at := none
    file_path := none
    error_message := none
    progress := 0 }

/-- The removal test of `cleanup_completed_tasks` (task_manager.py lines
208-214): terminal status, truthy `completed_at` (a datetime is truthy
whenever present), and age strictly greater than `max_age`. -/
def shouldRemove (max_age now : Int) (task : DownloadTask) : Bool :=
  (task.status = .completed ∨ task.status = .failed) &&
    match task.completed_at with
    | some ca => now - ca > max_age
    | none => false

/-- `DownloadTaskManager.cleanup_completed_tasks` (task_manager.py lines
192-227): collects every entry passing `shouldRemove`, deletes them from the
dict, and returns how many were deleted.  `now` stands for `datetime.now()`
at line 204; `max_age` is the `timedelta` of line 203 in the same time unit. -/
def cleanup_completed_tasks (s : Store) (max_age now : Int) : Nat × Store :=
  let tasks_to_remove := s.filter (fun p => shouldRemove max_age now p.2)
  (tasks_to_remove.length, s.filter (fun p => ! shouldRemove max_age now p.2))

/-- Folding a sequence of `update_task_status`-style calls over one task
record (each call carries its arguments and its `datetime.now()`). -/
def runUpdates (t : DownloadTask) (us : List (UpdateArgs × Int)) : DownloadTask :=
  us.foldl (fun t u => (applyUpdate t u.1 u.2).2) t

/-! ## video_downloader.py -/

/-- `video_downloader.DownloadResult` (dataclass, lines 16-22). -/
structure DownloadResult where
  success : Bool
  file_path : Option String := none
  error_message : Option String := none
  file_size : Int := 0
  deriving DecidableEq, Repr

/-- One byte-count event dict passed by yt-dlp to the progress hook.  Byte
counts are `ℚ` (yt-dlp may report floats); a key absent from the dict is
`none`. -/
structure ProgressEvent where
  status : String
  downloaded_bytes : ℚ
  total_bytes : Option ℚ
  total_bytes_estimate : Option ℚ
  deriving DecidableEq, Repr

/-- The fraction computed by `progress_hook` for a `"downloading"` event
(video_downloader.py lines 77-82): `downloaded_bytes / total_bytes` when the
exact total is present, else `downloaded_bytes / total_bytes_estimate`, else
`0.0`.  (Rational division by zero yields 0 where Python would raise
`ZeroDivisionError`; no claim is settled at a zero divisor.) -/
def hookFraction (d : ProgressEvent) : ℚ :=
  match d.total_bytes with
  | some tb => d.downloaded_bytes / tb
  | none =>
    match d.total_bytes_estimate with
    | some te => d.downloaded_bytes / te
    | none => 0

/-- `VideoDownloader.download_video.progress_hook` (lines 75-92), described
by its observable effect on one event: `some v` means `v` is stored into
`active_downloads[download_id]` and then passed to `progress_callback` when
one is supplied; `none` means the event is ignored. -/
def progress_hook (d : ProgressEvent) : Option ℚ :=
  if d.status = "downloading" then some (hookFraction d)
  else if d.status = "finished" then some 1
  else none

/-- Python truthiness of an `Optional[int]`: `None` and `0` are falsy. -/
def intTruthy : Option Int → Bool
  | none => false
  | some n => n ≠ 0

/-- Python `a or b` on two `Optional[int]` values, as in
`info.get('filesize') or info.get('filesize_approx')`
(video_downloader.py line 141). -/
def pyOr (a b : Option Int) : Option Int :=
  if intTruthy a then a else b

/-- Python `sub in s` substring test (on already-lowercased strings):
`s.splitOn sub` has more than one part exactly when `sub` occurs in `s`
(for nonempty `sub`). -/
def containsSub (s sub : String) : Bool :=
  (s.splitOn sub).length ≠ 1

/-- The size-limit message of video_downloader.py lines 144-147
(`{size_mb:.1f}` float formatting is rendered as the exact rational). -/
def video_too_large_msg (size_mb max_mb : ℚ) : String :=
  "Video too large: " ++ toString size_mb ++ "MB (max: " ++ toString max_mb ++ "MB)"

/-- The size-limit message of video_downloader.py lines 182-185. -/
def file_too_large_msg (size_mb max_mb : ℚ) : String :=
  "Downloaded file too large: " ++ toString size_mb ++ "MB (max: "
    ++ toString max_mb ++ "MB)"

/-- The metadata returned by `ydl.extract_info(url, download=False)`, reduced
to the keys `_download_sync` reads. -/
structure FetchInfo where
  filesize : Option Int
  filesize_approx : Option Int
  deriving DecidableEq, Repr

/-- An exception escaping the fetch library into `_download_sync`:
`yt_dlp.utils.DownloadError` (caught at line 203) or any other `Exception`
(caught at line 224), each carrying `str(e)`. -/
inductive FetchExc
  | downloadError (msg : String)
  | otherError (msg : String)
  deriving DecidableEq, Repr

/-- The two `except` clauses of `_download_sync` (lines 203-229). -/
def handleSyncExc : FetchExc → DownloadResult
  | .downloadError msg =>
    if containsSub msg.toLower "unavailable" then
      { success := false, error_message := some "Video is unavailable or private" }
    else if containsSub msg.toLower "not found" then
      { success := false, error_message := some "Video not found" }
    else
      { success := false, error_message := some ("Download failed: " ++ msg) }
  | .otherError msg =>
    { success := false, error_message := some ("Unexpected error: " ++ msg) }

/-- The external world one `_download_sync` run interacts with: what
`extract_info` yields (metadata or an exception), what `ydl.download` does
(returns or raises), whether a file then exists at the exact output template,
the same-stem files the `glob` of line 165 would find, and the size
`os.path.getsize` reports for each path. -/
structure SyncEnv where
  extract_info : Except FetchExc FetchInfo
  download : Except FetchExc Unit
  file_exists_at_outtmpl : Bool
  glob_same_stem : List String
  getsize : String → Int

/-- The output-path resolution of video_downloader.py lines 158-173: the
template itself when a file exists there, else the first same-stem glob
match, else nothing. -/
def resolveOutput (env : SyncEnv) (outtmpl : String) : Option String :=
  if env.file_exists_at_outtmpl then some outtmpl
  else
    match env.glob_same_stem with
    | [] => none
    | f :: _ => some f

/-- `_download_sync`'s return value together with the side effects it
performed: whether `ydl.download` was invoked (bytes transferred / file
written) and which file `os.remove` deleted, if any. -/
structure SyncOutcome where
  result : DownloadResult
  download_invoked : Bool
  removed_file : Option String
  deriving Repr

/-- `VideoDownloader._download_sync` (video_downloader.py lines 123-229) over
an explicit environment.  `max_file_size_bytes` and `max_file_size_mb` are
the fields set in `__init__` (lines 37-38); `outtmpl` is
`ydl_opts['outtmpl']`, i.e. the caller's output path. -/
def download_sync (env : SyncEnv) (max_file_size_bytes max_file_size_mb : Int)
    (outtmpl : String) : SyncOutcome :=
  match env.extract_info with
  | .error e =>
    { result := handleSyncExc e, download_invoked := false, removed_file := none }
  | .ok info =>
    let filesize := pyOr info.filesize info.filesize_approx
    if intTruthy filesize ∧ filesize.getD 0 > max_file_size_bytes then
      { result := { success := false
                    error_message := some (video_too_large_msg
                      ((filesize.getD 0 : ℚ) / (1024 * 1024)) (max_file_size_mb : ℚ)) }
        download_invoked := false
        removed_file := none }
    else
      match env.download with
      | .error e =>
        { result := handleSyncExc e, download_invoked := true, removed_file := none }
      | .ok _ =>
        match resolveOutput env outtmpl with
        | none =>
          { result := { success := false
                        error_message := some "Downloaded file not found" }
            download_invoked := true
            removed_file := none }
        | some output_path =>
          let file_size := env.getsize output_path
          if file_size > max_file_size_bytes then
            { result := { success := false
                          error_message := some (file_too_large_msg
                            ((file_size : ℚ) / (1024 * 1024)) (max_file_size_mb : ℚ)) }
              download_invoked := true
              removed_file := some output_path }
          else
            { result := { success := true
                          file_path := some output_path
                          file_size := file_size }
              download_invoked := true
              removed_file := none }

/-- The world `download_video` runs against: `pre = some msg` means an
exception with `str(e) = msg` is raised in the async wrapper itself (e.g.
`mkdir` at line 68, or the executor dispatch) and caught at line 111;
otherwise the dispatched `_download_sync` runs against `sync`. -/
structure VideoEnv where
  pre : Option String
  sync : SyncEnv

/-- `VideoDownloader.download_video` (video_downloader.py lines 45-121): the
try/except wrapper around the dispatched `_download_sync`.  Every exception
in the wrapper becomes `DownloadResult(success=False,
error_message=f"Download error: {str(e)}")` (lines 111-121). -/
def download_video (env : VideoEnv) (max_file_size_bytes max_file_size_mb : Int)
    (output_path : String) : DownloadResult :=
  match env.pre with
  | some msg => { success := false, error_message := some ("Download error: " ++ msg) }
  | none => (download_sync env.sync max_file_size_bytes max_file_size_mb output_path).result

/-! ## Helper lemmas shared by several claims -/

/-- A status with no outgoing edges in `VALID_TRANSITIONS`. -/
def isTerminal (st : TaskStatus) : Bool :=
  st = .completed || st = .failed

theorem applyUpdate_fst (t : DownloadTask) (a : UpdateArgs) (n : Int) :
    (applyUpdate t a n).1 = is_valid_transition t.status a.new_status := by
  unfold applyUpdate
  by_cases h : is_valid_transition t.status a.new_status <;> simp [h]

theorem applyUpdate_invalid (t : DownloadTask) (a : UpdateArgs) (n : Int)
    (h : is_valid_transition t.status a.new_status = false) :
    applyUpdate t a n = (false, t) := by
  unfold applyUpdate
  simp [h]

theorem is_valid_transition_iff (c n : TaskStatus) :
    is_valid_transition c n = true ↔
      ((c = .pending ∧ (n = .downloading ∨ n = .failed)) ∨
       (c = .downloading ∧ (n = .completed ∨ n = .failed))) := by
  cases c <;> cases n <;> decide

theorem applyUpdate_terminal (t : DownloadTask) (a : UpdateArgs) (n : Int)
    (h : isTerminal t.status = true) : applyUpdate t a n = (false, t) := by
  apply applyUpdate_invalid
  have h' : t.status = .completed ∨ t.status = .failed := by
    simpa [isTerminal] using h
  rcases h' with h' | h' <;> simp [is_valid_transition, VALID_TRANSITIONS, h']

theorem runUpdates_terminal (t : DownloadTask) (us : List (UpdateArgs × Int))
    (h : isTerminal t.status = true) : runUpdates t us = t := by
  induction us with
  | nil => rfl
  | cons u us ih =>
    simp only [runUpdates, List.foldl_cons]
    rw [applyUpdate_terminal t u.1 u.2 h]
    exact ih

theorem update_task_status_found (s : Store) (id : String) (task : DownloadTask)
    (args : UpdateArgs) (now : Int) (hfound : lookupTask s id = some task) :
    update_task_status s id args now =
      if is_valid_transition task.status args.new_status then
        (true, s.map (fun p => if p.1 = id then (p.1, (applyUpdate task args now).2) else p))
      else (false, s) := by
  unfold update_task_status
  rw [hfound]
  by_cases h : is_valid_transition task.status args.new_status
  · simp [applyUpdate_fst, h]
  · simp [applyUpdate_fst, Bool.eq_false_iff.mpr h, h]

theorem valid_source_nonterminal (c n : TaskStatus)
    (h : is_valid_transition c n = true) : isTerminal c = false := by
  cases c <;> simp_all [is_valid_transition, VALID_TRANSITIONS, isTerminal]

theorem applyUpdate_accepted_status (t : DownloadTask) (a : UpdateArgs) (n : Int)
    (h : is_valid_transition t.status a.new_status = true) :
    (applyUpdate t a n).2.status = a.new_status := by
  unfold applyUpdate
  simp only [h, not_true_eq_false, if_false]
  cases a.progress <;>
    by_cases h1 : strTruthy a.file_path <;>
    by_cases h2 : strTruthy a.error_message <;>
    by_cases h3 : a.new_status = .completed ∨ a.new_status = .failed <;>
    simp [h1, h2, h3]

theorem applyUpdate_accepted_ca (t : DownloadTask) (a : UpdateArgs) (n : Int)
    (h : is_valid_transition t.status a.new_status = true) :
    (applyUpdate t a n).2.completed_at =
      if a.new_status = .completed ∨ a.new_status = .failed then some n
      else t.completed_at := by
  unfold applyUpdate
  simp only [h, not_true_eq_false, if_false]
  cases a.progress <;>
    by_cases h1 : strTruthy a.file_path <;>
    by_cases h2 : strTruthy a.error_message <;>
    by_cases h3 : a.new_status = .completed ∨ a.new_status = .failed <;>
    simp [h1, h2, h3]

/-- The `completedAt` invariant: unset while non-terminal, set while terminal. -/
def CAInv (t : DownloadTask) : Prop :=
  (isTerminal t.status = false → t.completed_at = none) ∧
  (isTerminal t.status = true → t.completed_at ≠ none)

theorem CAInv_step (t : DownloadTask) (a : UpdateArgs) (n : Int)
    (h : CAInv t) : CAInv (applyUpdate t a n).2 := by
  by_cases hv : is_valid_transition t.status a.new_status = true
  · have hs := applyUpdate_accepted_status t a n hv
    have hca := applyUpdate_accepted_ca t a n hv
    have hnt := valid_source_nonterminal t.status a.new_status hv
    have hnone : t.completed_at = none := h.1 hnt
    by_cases ht : a.new_status = .completed ∨ a.new_status = .failed
    · constructor
      · intro hfalse
        rw [hs] at hfalse
        rcases ht with ht | ht <;> simp [isTerminal, ht] at hfalse
      · intro _
        rw [hca, if_pos ht]
        exact Option.some_ne_none n
    · constructor
      · intro _
        rw [hca, if_neg ht]
        exact hnone
      · intro htrue
        rw [hs] at htrue
        exfalso
        apply ht
        simpa [isTerminal] using htrue
  · rw [applyUpdate_invalid t a n (Bool.eq_false_iff.mpr hv)]
    exact h

theorem CAInv_run (t : DownloadTask) (us : List (UpdateArgs × Int))
    (h : CAInv t) : CAInv (runUpdates t us) := by
  induction us generalizing t with
  | nil => exact h
  | cons u us ih => exact ih _ (CAInv_step t u.1 u.2 h)

theorem runUpdates_append (t : DownloadTask) (a b : List (UpdateArgs × Int)) :
    runUpdates t (a ++ b) = runUpdates (runUpdates t a) b :=
  List.foldl_append ..

theorem CAInv_create (id url : String) (uid : Int) (pf : Platform) (n0 : Int) :
    CAInv (create_task id url uid pf n0) := by
  constructor
  · intro _; rfl
  · intro h; exact absurd h (by simp [create_task, isTerminal])

theorem shouldRemove_iff (ma now : Int) (t : DownloadTask) :
    shouldRemove ma now t = true ↔
      ((t.status = .completed ∨ t.status = .failed) ∧
        ∃ ca, t.completed_at = some ca ∧ now - ca > ma) := by
  unfold shouldRemove
  cases hca : t.completed_at with
  | none => simp
  | some ca => simp

theorem cleanup_idem (s : Store) (ma now : Int) :
    (cleanup_completed_tasks (cleanup_completed_tasks s ma now).2 ma now).1 = 0 := by
  unfold cleanup_completed_tasks
  rw [List.filter_filter]
  simp

/-! ## Claim theorems -/

/-- **C1.** For every task id present in the store and every pair of statuses,
`update_task_status` succeeds exactly when (current, new) is an edge of the
transition table {Pending→{Downloading,Failed}, Downloading→{Completed,Failed},
Completed→{}, Failed→{}}; when it rejects, the store — hence every field of
the task record — is exactly as before (and the model is a total function:
no exception). -/
theorem C1_update_status_transition_table (s : Store) (id : String)
    (task : DownloadTask) (args : UpdateArgs) (now : Int)
    (hfound : lookupTask s id = some task) :
    ((update_task_status s id args now).1 = true ↔
      ((task.status = .pending ∧
          (args.new_status = .downloading ∨ args.new_status = .failed)) ∨
       (task.status = .downloading ∧
          (args.new_status = .completed ∨ args.new_status = .failed)))) ∧
    ((update_task_status s id args now).1 = false →
      (update_task_status s id args now).2 = s) := by
  rw [update_task_status_found s id task args now hfound]
  by_cases h : is_valid_transition task.status args.new_status
  · simp only [if_pos h]
    refine ⟨?_, by simp⟩
    simpa using (is_valid_transition_iff task.status args.new_status).mp h
  · simp only [if_neg h]
    refine ⟨?_, by simp⟩
    constructor
    · simp
    · intro hc
      exact absurd ((is_valid_transition_iff task.status args.new_status).mpr hc) h

theorem C1_witness :
    lookupTask [("t", create_task "t" "u" 7 .tiktok 0)] "t" =
      some (create_task "t" "u" 7 .tiktok 0) ∧
    ((update_task_status [("t", create_task "t" "u" 7 .tiktok 0)] "t"
        ⟨.completed, none, none, none⟩ 1).1 = false →
      (update_task_status [("t", create_task "t" "u" 7 .tiktok 0)] "t"
        ⟨.completed, none, none, none⟩ 1).2 = [("t", create_task "t" "u" 7 .tiktok 0)]) := by
  have h := C1_update_status_transition_table
    [("t", create_task "t" "u" 7 .tiktok 0)] "t" (create_task "t" "u" 7 .tiktok 0)
    ⟨.completed, none, none, none⟩ 1 (by decide)
  exact ⟨by decide, h.2⟩

/-- **C10.** For a task whose status is `Downloading`, a same-status update
carrying only a progress value is rejected and the store is left unchanged
(every field of the record included); moreover any accepted update from
`Downloading` necessarily moves the task to `Completed` or `Failed`, so no
accepted call changes progress without also leaving `Downloading`. -/
theorem C10_no_progress_only_update (s : Store) (id : String) (t : DownloadTask)
    (now : Int) (hfound : lookupTask s id = some t)
    (hst : t.status = .downloading) (fp em : Option String) (p : ℚ) :
    update_task_status s id ⟨.downloading, fp, em, some p⟩ now = (false, s) ∧
    (∀ args : UpdateArgs, (update_task_status s id args now).1 = true →
      args.new_status = .completed ∨ args.new_status = .failed) := by
  constructor
  · rw [update_task_status_found s id t ⟨.downloading, fp, em, some p⟩ now hfound]
    simp [is_valid_transition, VALID_TRANSITIONS, hst]
  · intro args hacc
    rw [update_task_status_found s id t args now hfound] at hacc
    by_cases h : is_valid_transition t.status args.new_status
    · rcases (is_valid_transition_iff t.status args.new_status).mp h with ⟨h1, _⟩ | ⟨_, h2⟩
      · rw [hst] at h1; cases h1
      · exact h2
    · simp [if_neg h] at hacc

/-- **C2.** Along any sequence of `update_task_status` calls applied to a
freshly created task: as long as the status is non-terminal, `completed_at`
is `none`; as soon as the status is terminal (which only the first accepted
transition into `Completed`/`Failed` can make it), `completed_at` is set,
and the whole record — `completed_at` included — never changes again under
any further call, accepted or rejected. -/
theorem C2_completedAt_set_once (id url : String) (uid : Int) (pf : Platform)
    (n0 : Int) (us : List (UpdateArgs × Int)) (k j : Nat) (hkj : k ≤ j) :
    (isTerminal (runUpdates (create_task id url uid pf n0) (us.take k)).status = false →
      (runUpdates (create_task id url uid pf n0) (us.take k)).completed_at = none) ∧
    (isTerminal (runUpdates (create_task id url uid pf n0) (us.take k)).status = true →
      (runUpdates (create_task id url uid pf n0) (us.take k)).completed_at ≠ none ∧
      runUpdates (create_task id url uid pf n0) (us.take j) =
        runUpdates (create_task id url uid pf n0) (us.take k)) := by
  have hinv := CAInv_run (create_task id url uid pf n0) (us.take k)
    (CAInv_create id url uid pf n0)
  refine ⟨hinv.1, fun hterm => ⟨hinv.2 hterm, ?_⟩⟩
  have hsplit : us.take j = us.take k ++ (us.drop k).take (j - k) := by
    rw [← List.take_add]
    congr 1
    omega
  rw [hsplit, runUpdates_append]
  exact runUpdates_terminal _ _ hterm

theorem C2_witness :
    (runUpdates (create_task "t" "u" 7 .tiktok 0)
        (([(⟨.downloading, none, none, none⟩, 1),
           (⟨.completed, some "f", none, none⟩, 2),
           (⟨.failed, none, some "e", none⟩, 3)] : List (UpdateArgs × Int)).take 2)).completed_at
      ≠ none ∧
    runUpdates (create_task "t" "u" 7 .tiktok 0)
        (([(⟨.downloading, none, none, none⟩, 1),
           (⟨.completed, some "f", none, none⟩, 2),
           (⟨.failed, none, some "e", none⟩, 3)] : List (UpdateArgs × Int)).take 3) =
      runUpdates (create_task "t" "u" 7 .tiktok 0)
        (([(⟨.downloading, none, none, none⟩, 1),
           (⟨.completed, some "f", none, none⟩, 2),
           (⟨.failed, none, some "e", none⟩, 3)] : List (UpdateArgs × Int)).take 2) := by
  have h := C2_completedAt_set_once "t" "u" 7 .tiktok 0
    [(⟨.downloading, none, none, none⟩, 1),
     (⟨.completed, some "f", none, none⟩, 2),
     (⟨.failed, none, some "e", none⟩, 3)] 2 3 (by decide)
  exact h.2 (by decide)

theorem applyUpdate_writes_progress (t : DownloadTask) (a : UpdateArgs) (n : Int)
    (p : ℚ) (hv : is_valid_transition t.status a.new_status = true)
    (hp : a.progress = some p) :
    (applyUpdate t a n).2.progress = max 0 (min 1 p) := by
  unfold applyUpdate
  simp only [hv, not_true_eq_false, if_false]
  by_cases h1 : strTruthy a.file_path <;>
    by_cases h2 : strTruthy a.error_message <;>
    by_cases h3 : a.new_status = .completed ∨ a.new_status = .failed <;>
    simp [h1, h2, h3, hp]

theorem applyUpdate_progress_range (t : DownloadTask) (a : UpdateArgs) (n : Int)
    (h : 0 ≤ t.progress ∧ t.progress ≤ 1) :
    0 ≤ (applyUpdate t a n).2.progress ∧ (applyUpdate t a n).2.progress ≤ 1 := by
  by_cases hv : is_valid_transition t.status a.new_status = true
  · cases hp : a.progress with
    | none =>
      have : (applyUpdate t a n).2.progress = t.progress := by
        unfold applyUpdate
        simp only [hv, not_true_eq_false, if_false]
        by_cases h1 : strTruthy a.file_path <;>
          by_cases h2 : strTruthy a.error_message <;>
          by_cases h3 : a.new_status = .completed ∨ a.new_status = .failed <;>
          simp [h1, h2, h3, hp]
      rw [this]; exact h
    | some p =>
      rw [applyUpdate_writes_progress t a n p hv hp]
      constructor
      · exact le_max_left 0 _
      · exact max_le (by norm_num) (min_le_left 1 p)
  · rw [applyUpdate_invalid t a n (Bool.eq_false_iff.mpr hv)]
    exact h

theorem runUpdates_progress_range (t : DownloadTask) (us : List (UpdateArgs × Int))
    (h : 0 ≤ t.progress ∧ t.progress ≤ 1) :
    0 ≤ (runUpdates t us).progress ∧ (runUpdates t us).progress ≤ 1 := by
  induction us generalizing t with
  | nil => exact h
  | cons u us ih => exact ih _ (applyUpdate_progress_range t u.1 u.2 h)

/-- **C3.** Starting from `create_task`, after any sequence of
`update_task_status` calls the stored progress is within `[0, 1]`, whatever
real values were supplied (including below `0` and above `1`); moreover an
accepted update that carries progress `p` stores exactly
`max 0.0 (min 1.0 p)`. -/
theorem C3_progress_clamped (id url : String) (uid : Int) (pf : Platform)
    (n0 : Int) (us : List (UpdateArgs × Int)) :
    (0 ≤ (runUpdates (create_task id url uid pf n0) us).progress ∧
      (runUpdates (create_task id url uid pf n0) us).progress ≤ 1) ∧
    (∀ (t : DownloadTask) (args : UpdateArgs) (p : ℚ) (now : Int),
      args.progress = some p → (applyUpdate t args now).1 = true →
      (applyUpdate t args now).2.progress = max 0 (min 1 p)) := by
  constructor
  · exact runUpdates_progress_range _ us ⟨le_refl 0, by norm_num [create_task]⟩
  · intro t args p now hp hacc
    rw [applyUpdate_fst] at hacc
    exact applyUpdate_writes_progress t args now p hacc hp

theorem C3_witness :
    (0 ≤ (runUpdates (create_task "t" "u" 7 .tiktok 0)
            [(⟨.downloading, none, none, some 7⟩, 1)]).progress ∧
      (runUpdates (create_task "t" "u" 7 .tiktok 0)
            [(⟨.downloading, none, none, some 7⟩, 1)]).progress ≤ 1) ∧
    (applyUpdate (create_task "t" "u" 7 .tiktok 0)
        ⟨.downloading, none, none, some 7⟩ 1).2.progress = max 0 (min 1 7) := by
  have h := C3_progress_clamped "t" "u" 7 .tiktok 0
    [(⟨.downloading, none, none, some 7⟩, 1)]
  exact ⟨h.1, h.2 (create_task "t" "u" 7 .tiktok 0)
    ⟨.downloading, none, none, some 7⟩ 7 1 rfl (by decide)⟩

/-- **C7.** `cleanup_completed_tasks(maxAge)` keeps exactly the entries that
are not (terminal with a set `completed_at` strictly older than `maxAge`);
it never adds entries; the returned count is exactly the number of entries
removed; `Pending`/`Downloading` tasks are never removed whatever their age;
and an immediately repeated call (same clock reading) removes zero. -/
theorem C7_cleanup_exact (s : Store) (ma now : Int) :
    (∀ e : String × DownloadTask, e ∈ s →
      (e ∈ (cleanup_completed_tasks s ma now).2 ↔
        ¬((e.2.status = .completed ∨ e.2.status = .failed) ∧
          ∃ ca, e.2.completed_at = some ca ∧ now - ca > ma))) ∧
    (cleanup_completed_tasks s ma now).2.Sublist s ∧
    (cleanup_completed_tasks s ma now).1 +
      (cleanup_completed_tasks s ma now).2.length = s.length ∧
    (∀ e : String × DownloadTask, e ∈ s →
      (e.2.status = .pending ∨ e.2.status = .downloading) →
      e ∈ (cleanup_completed_tasks s ma now).2) ∧
    (cleanup_completed_tasks (cleanup_completed_tasks s ma now).2 ma now).1 = 0 := by
  have hmem : ∀ e : String × DownloadTask, e ∈ s →
      (e ∈ (cleanup_completed_tasks s ma now).2 ↔
        ¬((e.2.status = .completed ∨ e.2.status = .failed) ∧
          ∃ ca, e.2.completed_at = some ca ∧ now - ca > ma)) := by
    intro e he
    unfold cleanup_completed_tasks
    rw [← shouldRemove_iff ma now e.2]
    constructor
    · intro hin hs
      have := (List.mem_filter.mp hin).2
      rw [hs] at this
      exact absurd this (by simp)
    · intro hns
      exact List.mem_filter.mpr ⟨he, by simp [Bool.eq_false_iff.mpr hns]⟩
  refine ⟨hmem, List.filter_sublist s, ?_, ?_, cleanup_idem s ma now⟩
  · unfold cleanup_completed_tasks
    exact (List.length_eq_length_filter_add
      (fun p : String × DownloadTask => shouldRemove ma now p.2)).symm
  · intro e he hact
    rw [hmem e he]
    intro ⟨hterm, _⟩
    rcases hact with h | h <;> rcases hterm with h' | h' <;> rw [h] at h' <;> cases h'

theorem C7_witness :
    ("p", (⟨"p", "u", 1, .tiktok, .pending, 0, none, none, none, 0⟩ : DownloadTask)) ∈
      (cleanup_completed_tasks
        [("p", ⟨"p", "u", 1, .tiktok, .pending, 0, none, none, none, 0⟩),
         ("c", ⟨"c", "u", 1, .tiktok, .completed, 0, some 1, none, none, 0⟩)] 10 100).2 ∧
    (cleanup_completed_tasks (cleanup_completed_tasks
        [("p", ⟨"p", "u", 1, .tiktok, .pending, 0, none, none, none, 0⟩),
         ("c", ⟨"c", "u", 1, .tiktok, .completed, 0, some 1, none, none, 0⟩)] 10 100).2
      10 100).1 = 0 := by
  have h := C7_cleanup_exact
    [("p", ⟨"p", "u", 1, .tiktok, .pending, 0, none, none, none, 0⟩),
     ("c", ⟨"c", "u", 1, .tiktok, .completed, 0, some 1, none, none, 0⟩)] 10 100
  exact ⟨h.2.2.2.1 ("p", ⟨"p", "u", 1, .tiktok, .pending, 0, none, none, none, 0⟩)
    (by decide) (by decide), h.2.2.2.2⟩

/-- **C8 (counterexample).** A task transitions `Downloading → Completed` at
time 5 (so `completed_at = some 5`); with zero clock time elapsed,
`cleanup_completed_tasks 0` at that same time 5 removes nothing and returns
0, because the code requires `now - completed_at > max_age` strictly —
contradicting the claim that the cleanup removes the task even when no clock
time has elapsed. -/
theorem C8_counterexample :
    (update_task_status
        [("t", ⟨"t", "u", 1, .tiktok, .downloading, 0, none, none, none, 0⟩)] "t"
        ⟨.completed, some "f", none, none⟩ 5).1 = true ∧
    lookupTask (update_task_status
        [("t", ⟨"t", "u", 1, .tiktok, .downloading, 0, none, none, none, 0⟩)] "t"
        ⟨.completed, some "f", none, none⟩ 5).2 "t" =
      some ⟨"t", "u", 1, .tiktok, .completed, 0, some 5, some "f", none, 0⟩ ∧
    (cleanup_completed_tasks (update_task_status
        [("t", ⟨"t", "u", 1, .tiktok, .downloading, 0, none, none, none, 0⟩)] "t"
        ⟨.completed, some "f", none, none⟩ 5).2 0 5).1 = 0 ∧
    (cleanup_completed_tasks (update_task_status
        [("t", ⟨"t", "u", 1, .tiktok, .downloading, 0, none, none, none, 0⟩)] "t"
        ⟨.completed, some "f", none, none⟩ 5).2 0 5).2 =
      (update_task_status
        [("t", ⟨"t", "u", 1, .tiktok, .downloading, 0, none, none, none, 0⟩)] "t"
        ⟨.completed, some "f", none, none⟩ 5).2 := by
  decide

/-- **C8 (amended).** For a task that has transitioned into `Completed` with
`completed_at = some ct`, a call `cleanup_completed_tasks 0` made at any
strictly later clock reading removes that task and returns a count of at
least 1, and a second immediate call (same clock reading) removes 0.  (With
exactly zero elapsed clock time the task is kept, since the age comparison
is strict.) -/
theorem C8_cleanup0_after_positive_delay (s : Store) (id : String)
    (t : DownloadTask) (ct now : Int) (hmem : (id, t) ∈ s)
    (hst : t.status = .completed) (hca : t.completed_at = some ct)
    (hlt : ct < now) :
    1 ≤ (cleanup_completed_tasks s 0 now).1 ∧
    (id, t) ∉ (cleanup_completed_tasks s 0 now).2 ∧
    (cleanup_completed_tasks (cleanup_completed_tasks s 0 now).2 0 now).1 = 0 := by
  have hrem : shouldRemove 0 now t = true := by
    rw [shouldRemove_iff]
    exact ⟨Or.inl hst, ct, hca, by omega⟩
  refine ⟨?_, ?_, cleanup_idem s 0 now⟩
  · have hin : (id, t) ∈ s.filter (fun p => shouldRemove 0 now p.2) :=
      List.mem_filter.mpr ⟨hmem, hrem⟩
    have hpos := List.length_pos_of_mem hin
    have hfst : (cleanup_completed_tasks s 0 now).1 =
        (s.filter (fun p => shouldRemove 0 now p.2)).length := rfl
    omega
  · intro hin
    have := (List.mem_filter.mp hin).2
    rw [hrem] at this
    exact absurd this (by simp)

theorem C8_amended_witness :
    1 ≤ (cleanup_completed_tasks
        [("t", ⟨"t", "u", 1, .tiktok, .completed, 0, some 5, some "f", none, 0⟩)] 0 6).1 ∧
    ("t", (⟨"t", "u", 1, .tiktok, .completed, 0, some 5, some "f", none, 0⟩ : DownloadTask)) ∉
      (cleanup_completed_tasks
        [("t", ⟨"t", "u", 1, .tiktok, .completed, 0, some 5, some "f", none, 0⟩)] 0 6).2 ∧
    (cleanup_completed_tasks (cleanup_completed_tasks
        [("t", ⟨"t", "u", 1, .tiktok, .completed, 0, some 5, some "f", none, 0⟩)] 0 6).2
      0 6).1 = 0 := by
  exact C8_cleanup0_after_positive_delay
    [("t", ⟨"t", "u", 1, .tiktok, .completed, 0, some 5, some "f", none, 0⟩)] "t"
    ⟨"t", "u", 1, .tiktok, .completed, 0, some 5, some "f", none, 0⟩ 5 6
    (by decide) rfl rfl (by decide)

theorem append_ne_empty_of_left (a b : String) (ha : a ≠ "") : a ++ b ≠ "" := by
  intro h
  apply ha
  have hlen := congrArg String.length h
  rw [String.length_append] at hlen
  have h0 : a.length = 0 := by
    have : String.length "" = 0 := rfl
    omega
  have hd : a.data.length = 0 := by rw [String.length_data]; exact h0
  have hnil : a.data = [] := List.length_eq_zero.mp hd
  cases a with
  | mk d => cases hnil; rfl

theorem video_too_large_msg_ne (a b : ℚ) : video_too_large_msg a b ≠ "" := by
  unfold video_too_large_msg
  exact append_ne_empty_of_left _ _ (append_ne_empty_of_left _ _
    (append_ne_empty_of_left _ _ (append_ne_empty_of_left _ _ (by decide))))

theorem file_too_large_msg_ne (a b : ℚ) : file_too_large_msg a b ≠ "" := by
  unfold file_too_large_msg
  exact append_ne_empty_of_left _ _ (append_ne_empty_of_left _ _
    (append_ne_empty_of_left _ _ (append_ne_empty_of_left _ _ (by decide))))

theorem handleSyncExc_msg (e : FetchExc) :
    (handleSyncExc e).success = false ∧
    ∃ m, (handleSyncExc e).error_message = some m ∧ m ≠ "" := by
  cases e with
  | downloadError msg =>
    unfold handleSyncExc
    by_cases h1 : containsSub msg.toLower "unavailable"
    · refine ⟨by simp [h1], "Video is unavailable or private", by simp [h1], by decide⟩
    · by_cases h2 : containsSub msg.toLower "not found"
      · refine ⟨by simp [h1, h2], "Video not found", by simp [h1, h2], by decide⟩
      · exact ⟨by simp [h1, h2], "Download failed: " ++ msg, by simp [h1, h2],
          append_ne_empty_of_left _ _ (by decide)⟩
  | otherError msg =>
    exact ⟨rfl, "Unexpected error: " ++ msg, rfl,
      append_ne_empty_of_left _ _ (by decide)⟩

theorem download_sync_result_shape (env : SyncEnv) (maxB maxMB : Int)
    (path : String) :
    (download_sync env maxB maxMB path).result.success = true ∨
    ∃ m, (download_sync env maxB maxMB path).result.error_message = some m ∧
      m ≠ "" := by
  unfold download_sync
  rcases henv : env.extract_info with e | info
  · right
    obtain ⟨_, m, hm, hne⟩ := handleSyncExc_msg e
    exact ⟨m, hm, hne⟩
  · dsimp only
    by_cases hsz : intTruthy (pyOr info.filesize info.filesize_approx) = true ∧
        (pyOr info.filesize info.filesize_approx).getD 0 > maxB
    · rw [if_pos hsz]
      right
      exact ⟨_, rfl, video_too_large_msg_ne _ _⟩
    · rw [if_neg hsz]
      rcases hdl : env.download with e | u
      · right
        obtain ⟨_, m, hm, hne⟩ := handleSyncExc_msg e
        exact ⟨m, hm, hne⟩
      · dsimp only
        rcases hout : resolveOutput env path with _ | outp
        · right
          exact ⟨"Downloaded file not found", rfl, by decide⟩
        · dsimp only
          by_cases hbig : env.getsize outp > maxB
          · rw [if_pos hbig]
            right
            exact ⟨_, rfl, file_too_large_msg_ne _ _⟩
          · rw [if_neg hbig]
            left
            rfl

/-- **C4 (code evaluation at the failing input).** For a `"downloading"`
event whose reported total (100 bytes) is smaller than the bytes already
downloaded (200), `progress_hook` computes the raw fraction `2` and delivers
it — unclamped, outside `[0, 1]` — to `active_downloads` and to the supplied
progress callback, contradicting the claimed clamping. -/
theorem C4_hook_unclamped :
    progress_hook ⟨"downloading", 200, some 100, none⟩ = some 2 ∧
    ¬ ((2 : ℚ) ≤ 1) := by
  constructor
  · unfold progress_hook hookFraction
    norm_num
  · norm_num

theorem download_sync_size_abort (env : SyncEnv) (maxB maxMB : Int)
    (path : String) (info : FetchInfo) (n : Int)
    (hinfo : env.extract_info = .ok info)
    (hsz : pyOr info.filesize info.filesize_approx = some n)
    (hne : n ≠ 0) (hgt : n > maxB) :
    download_sync env maxB maxMB path =
      { result := { success := false,
                    error_message := some (video_too_large_msg
                      ((n : ℚ) / (1024 * 1024)) (maxMB : ℚ)) },
        download_invoked := false,
        removed_file := none } := by
  unfold download_sync
  rw [hinfo]
  dsimp only
  simp only [hsz]
  rw [if_pos ⟨by simp [intTruthy, hne], by simpa using hgt⟩]
  simp

/-- **C5.** When the probed metadata declares a size (the `filesize` key, or
failing that `filesize_approx`, per Python `or`) strictly greater than the
configured maximum, `download_video` returns `success = false` with the
size-limit error message, the transfer is never started
(`download_invoked = false`) and no file is deleted (none was written). -/
theorem C5_declared_size_abort (env : VideoEnv) (maxB maxMB : Int)
    (path : String) (info : FetchInfo) (n : Int)
    (hpre : env.pre = none)
    (hinfo : env.sync.extract_info = .ok info)
    (hsz : pyOr info.filesize info.filesize_approx = some n)
    (hgt : n > maxB) (hB : 0 ≤ maxB) :
    download_video env maxB maxMB path =
      { success := false
        error_message := some (video_too_large_msg
          ((n : ℚ) / (1024 * 1024)) (maxMB : ℚ)) } ∧
    (download_sync env.sync maxB maxMB path).download_invoked = false ∧
    (download_sync env.sync maxB maxMB path).removed_file = none := by
  have hne : n ≠ 0 := by omega
  have habort := download_sync_size_abort env.sync maxB maxMB path info n
    hinfo hsz hne hgt
  unfold download_video
  rw [hpre, habort]
  exact ⟨rfl, rfl, rfl⟩

theorem C5_witness :
    download_video ⟨none, ⟨.ok ⟨some 100, none⟩, .ok (), false, [], fun _ => 0⟩⟩
        50 1 "out" =
      { success := false
        error_message := some (video_too_large_msg
          ((100 : ℚ) / (1024 * 1024)) (1 : ℚ)) } ∧
    (download_sync ⟨.ok ⟨some 100, none⟩, .ok (), false, [], fun _ => 0⟩
        50 1 "out").download_invoked = false ∧
    (download_sync ⟨.ok ⟨some 100, none⟩, .ok (), false, [], fun _ => 0⟩
        50 1 "out").removed_file = none := by
  exact C5_declared_size_abort
    ⟨none, ⟨.ok ⟨some 100, none⟩, .ok (), false, [], fun _ => 0⟩⟩
    50 1 "out" ⟨some 100, none⟩ 100 rfl rfl rfl (by decide) (by decide)

/-- **C6.** For a transfer that completes (no declared-size abort, the fetch
returns, an output file is resolved): if the actual file size strictly
exceeds the maximum, the file is deleted and the result is `success = false`
with the size-limit message; if it is within the limit, the result is
`success = true` carrying that path and size, and nothing is deleted. -/
theorem C6_actual_size_check (env : SyncEnv) (maxB maxMB : Int)
    (path outp : String) (info : FetchInfo)
    (hinfo : env.extract_info = .ok info)
    (hpre : ¬(intTruthy (pyOr info.filesize info.filesize_approx) = true ∧
        (pyOr info.filesize info.filesize_approx).getD 0 > maxB))
    (hdl : env.download = .ok ())
    (hout : resolveOutput env path = some outp) :
    (env.getsize outp > maxB →
      (download_sync env maxB maxMB path).result.success = false ∧
      (download_sync env maxB maxMB path).result.error_message =
        some (file_too_large_msg
          ((env.getsize outp : ℚ) / (1024 * 1024)) (maxMB : ℚ)) ∧
      (download_sync env maxB maxMB path).removed_file = some outp) ∧
    (env.getsize outp ≤ maxB →
      (download_sync env maxB maxMB path).result =
        { success := true, file_path := some outp, file_size := env.getsize outp } ∧
      (download_sync env maxB maxMB path).removed_file = none) := by
  unfold download_sync
  rw [hinfo]
  dsimp only
  rw [if_neg hpre, hdl]
  dsimp only
  rw [hout]
  dsimp only
  constructor
  · intro hbig
    rw [if_pos hbig]
    exact ⟨rfl, rfl, rfl⟩
  · intro hsmall
    rw [if_neg (not_lt.mpr hsmall)]
    exact ⟨rfl, rfl⟩

theorem C6_witness :
    (download_sync ⟨.ok ⟨none, none⟩, .ok (), true, [], fun _ => 10⟩
        5 1 "out").result.success = false ∧
    (download_sync ⟨.ok ⟨none, none⟩, .ok (), true, [], fun _ => 10⟩
        5 1 "out").result.error_message =
      some (file_too_large_msg ((10 : ℚ) / (1024 * 1024)) (1 : ℚ)) ∧
    (download_sync ⟨.ok ⟨none, none⟩, .ok (), true, [], fun _ => 10⟩
        5 1 "out").removed_file = some "out" := by
  exact (C6_actual_size_check ⟨.ok ⟨none, none⟩, .ok (), true, [], fun _ => 10⟩
    5 1 "out" "out" ⟨none, none⟩ rfl (by decide) rfl rfl).1 (by decide)

/-- **C9.** For every environment — the fetch may return metadata, raise a
`DownloadError`, or raise any other exception at any stage, and the wrapper
itself may raise — `download_video` is a total function into
`DownloadResult` (no exception crosses the boundary) and every non-success
result carries a nonempty human-readable error message. -/
theorem C9_never_raises (env : VideoEnv) (maxB maxMB : Int) (path : String) :
    (download_video env maxB maxMB path).success = true ∨
    ∃ m, (download_video env maxB maxMB path).error_message = some m ∧
      m ≠ "" := by
  unfold download_video
  rcases hpre : env.pre with _ | msg
  · exact download_sync_result_shape env.sync maxB maxMB path
  · right
    exact ⟨"Download error: " ++ msg, rfl,
      append_ne_empty_of_left _ _ (by decide)⟩

theorem C10_witness :
    update_task_status
      [("t", ⟨"t", "u", 7, .tiktok, .downloading, 0, none, none, none, 0⟩)] "t"
      ⟨.downloading, none, none, some (1/2)⟩ 5 =
      (false, [("t", ⟨"t", "u", 7, .tiktok, .downloading, 0, none, none, none, 0⟩)]) := by
  have h := C10_no_progress_only_update
    [("t", ⟨"t", "u", 7, .tiktok, .downloading, 0, none, none, none, 0⟩)] "t"
    ⟨"t", "u", 7, .tiktok, .downloading, 0, none, none, none, 0⟩ 5
    (by decide) (by decide) none none (1/2)
  exact h.1

end VideoBot
